import Mathlib

/-!
Shallow embedding of the sensor-acquisition core of `room_temp.c`
(`read_mcp9801`, `getStatus`, `busy_wait_limited`, `read_aht10`,
`read_sht30`, the dispatch in `main`), shared with `temp_humid.c` /
`temp_humid2.c`.

Modelling conventions:
* The i2c transport is modelled by its observable results.  A status probe
  (`i2c_smbus_read_byte`) yields `Option Nat`: `some b` with `b < 256` for a
  successfully read byte, `none` for a transport failure (negative return).
* C `float`/`double` arithmetic is modelled exactly over `ℚ`, with the
  formulas of the source (float rounding is not modelled).
* `uint8_t` counters are `Nat` values reduced `% 256` where the C value wraps.
* Each driver returns `(ret, temp?, humi?)`: the `int8_t` return value and
  the values written through the `temp`/`humi` out-parameters
  (`none` = the out-parameter was left untouched).
-/

namespace RoomTemp

/-! ### Constants from the source -/

def AHTX0_STATUS_BUSY : Nat := 0x80

def AHTX0_STATUS_CALIBRATED : Nat := 0x08

def TOUT_10_MS : Nat := 10

def TOUT_20_MS : Nat := 20

def BUSY_WAIT_RETRIES : Nat := 20

/-! ### Status probe and busy-wait poller -/

/-- Model of `getStatus` (room_temp.c lines 106-115): `int8_t ret =
i2c_smbus_read_byte(file); if (ret < 0) return 0xFF; return (uint8_t)ret;`.
A transport failure (`none`, negative return value) yields `0xFF`; a read
byte `b ≥ 128` is made negative by the `int8_t` truncation and also yields
`0xFF`; otherwise the byte is returned as is. -/
def getStatus (probe : Option Nat) : Nat :=
  match probe with
  | none => 0xFF
  | some b => if 128 ≤ b then 0xFF else b

/-- Loop body of `busy_wait_limited` (room_temp.c lines 117-130), consuming
one status probe result per iteration.  `retries` is the `uint8_t` counter
(incremented mod 256); the loop returns `some 0` on a not-busy probe,
`some (-1)` when the incremented counter exceeds `max_retries`, and `none`
when the probe trace is exhausted (the C loop would keep polling).  The
second component is the list of probe results not yet consumed. -/
def busy_wait_loop : List (Option Nat) → Nat → Nat → Option Int × List (Option Nat)
  | [], _, _ => (none, [])
  | p :: ps, retries, max_retries =>
    if getStatus p &&& AHTX0_STATUS_BUSY ≠ 0 then
      let r := (retries + 1) % 256
      if r > max_retries then (some (-1), ps)
      else busy_wait_loop ps r max_retries
    else (some 0, ps)

/-- `busy_wait_limited(file, loop_delay_ms, max_retries)`: the counter starts
at 0; `loop_delay_ms` only feeds `usleep` and has no observable effect. -/
def busy_wait_limited (loop_delay_ms max_retries : Nat)
    (probes : List (Option Nat)) : Option Int × List (Option Nat) :=
  busy_wait_loop probes 0 max_retries

/-! ### MCP9801 driver -/

/-- Decode step of `read_mcp9801` (room_temp.c line 102):
`*temp = (res&0xff)+(double)(res>>12)/16;` on the word `res` read from the
temperature register. -/
def read_mcp9801_decode (w : Nat) : ℚ :=
  ((w &&& 0xff : Nat) : ℚ) + ((w >>> 12 : Nat) : ℚ) / 16

/-- Model of `read_mcp9801` (room_temp.c lines 77-104).  `cfgRead` is the
result of the config-register read, `wordRead` of the temperature-register
word read; the conditional config fix-up write and settle delay have no
effect on the returned reading.  Returns 1 and writes only `temp` on
success, -1 writing nothing on either transport failure. -/
def read_mcp9801 (cfgRead wordRead : Option Nat) : Int × Option ℚ × Option ℚ :=
  match cfgRead with
  | none => (-1, none, none)
  | some _ =>
    match wordRead with
    | none => (-1, none, none)
    | some w => (1, some (read_mcp9801_decode w), none)

/-! ### AHT10 driver -/

/-- A 6-byte block read from the device in one transaction. -/
structure RawBlock6 where
  b0 : Nat
  b1 : Nat
  b2 : Nat
  b3 : Nat
  b4 : Nat
  b5 : Nat
deriving DecidableEq

/-- Raw 20-bit humidity of `read_aht10` (room_temp.c lines 183-187):
`h = data[1]; h <<= 8; h |= data[2]; h <<= 4; h |= data[3] >> 4;`. -/
def aht10_raw_humi (d : RawBlock6) : Nat :=
  (d.b1 <<< 8 ||| d.b2) <<< 4 ||| d.b3 >>> 4

/-- Raw 20-bit temperature of `read_aht10` (room_temp.c lines 190-194):
`tdata = data[3] & 0x0F; tdata <<= 8; tdata |= data[4]; tdata <<= 8;
tdata |= data[5];`. -/
def aht10_raw_temp (d : RawBlock6) : Nat :=
  ((d.b3 &&& 0x0F) <<< 8 ||| d.b4) <<< 8 ||| d.b5

/-- Humidity written by `read_aht10` (line 188):
`*humi = ((float)h * 100) / 0x100000;`. -/
def aht10_humi (d : RawBlock6) : ℚ :=
  (aht10_raw_humi d : ℚ) * 100 / 0x100000

/-- Temperature written by `read_aht10` (line 195):
`*temp = ((float)tdata * 200 / 0x100000) - 50;`. -/
def aht10_temp (d : RawBlock6) : ℚ :=
  (aht10_raw_temp d : ℚ) * 200 / 0x100000 - 50

/-- Calibrated-flag check of `read_aht10` (room_temp.c line 161): the driver
errors out iff `!(getStatus(file) & AHTX0_STATUS_CALIBRATED)`. -/
def aht10_cal_check (p : Option Nat) : Bool :=
  getStatus p &&& AHTX0_STATUS_CALIBRATED != 0

/-- Observable transport interactions of one `read_aht10` run, in protocol
order.  `calWriteOk` records the calibrate-command write (its result is
ignored by the source: `AHT10_CALIBRATE_EXIT_ON_FAIL` is not defined);
`probes` are the successive status-probe results consumed by the busy-waits
and the calibrated check; `trigWriteOk` is the trigger-command write;
`blockRead` the 6-byte block read. -/
structure AhtTransport where
  calWriteOk : Bool
  probes : List (Option Nat)
  trigWriteOk : Bool
  blockRead : Option RawBlock6

/-- Tail of `read_aht10` after the calibrated check has passed
(room_temp.c lines 166-196): trigger write, second busy-wait, block read,
decode.  `none` models a probe trace too short for the loop. -/
def aht10_after_cal (trigWriteOk : Bool) (probes : List (Option Nat))
    (blockRead : Option RawBlock6) : Option (Int × Option ℚ × Option ℚ) :=
  if !trigWriteOk then some (-1, none, none)
  else
    match busy_wait_limited TOUT_20_MS BUSY_WAIT_RETRIES probes with
    | (none, _) => none
    | (some r, _) =>
      if r < 0 then some (-1, none, none)
      else
        match blockRead with
        | none => some (-1, none, none)
        | some d => some (3, some (aht10_temp d), some (aht10_humi d))

/-- Model of `read_aht10` (room_temp.c lines 132-197), with the disabled
`AHT10_SOFTRESET` / `AHT10_CALIBRATE_EXIT_ON_FAIL` sections compiled out:
calibrate write (failure ignored), first busy-wait, calibrated check
(consuming one probe), then `aht10_after_cal`. -/
def read_aht10 (t : AhtTransport) : Option (Int × Option ℚ × Option ℚ) :=
  match busy_wait_limited TOUT_10_MS BUSY_WAIT_RETRIES t.probes with
  | (none, _) => none
  | (some r, rest) =>
    if r < 0 then some (-1, none, none)
    else
      match rest with
      | [] => none
      | p :: rest2 =>
        if aht10_cal_check p then aht10_after_cal t.trigWriteOk rest2 t.blockRead
        else some (-1, none, none)

/-! ### SHT30 driver -/

/-- Temperature written by `read_sht30` (room_temp.c line 214):
`*temp = -45 + (175 * (float)(data[0] * 256 + data[1]) / 65535.0);`. -/
def sht30_temp (d : RawBlock6) : ℚ :=
  -45 + 175 * ((d.b0 * 256 + d.b1 : Nat) : ℚ) / 65535

/-- Humidity written by `read_sht30` (room_temp.c line 215):
`*humi = 100 * (float)(data[3] * 256 + data[4]) / 65535.0;`. -/
def sht30_humi (d : RawBlock6) : ℚ :=
  100 * ((d.b3 * 256 + d.b4 : Nat) : ℚ) / 65535

/-- Model of `read_sht30` (room_temp.c lines 199-217): measurement-command
write, settle delay (no observable effect), 6-byte block read, decode. -/
def read_sht30 (measWriteOk : Bool) (blockRead : Option RawBlock6) :
    Int × Option ℚ × Option ℚ :=
  if !measWriteOk then (-1, none, none)
  else
    match blockRead with
    | none => (-1, none, none)
    | some d => (3, some (sht30_temp d), some (sht30_humi d))

/-! ### Dispatcher result handling -/

/-- Exit code chosen by `main` from the driver return value (room_temp.c
lines 322-325 and 344): `if (res <= 0) exit(2);` else the process prints
and exits 0. -/
def main_exit_code (res : Int) : Nat :=
  if res ≤ 0 then 2 else 0

/-- Re-packing of the two 20-bit raw AHT10 values into bytes 1..5,
the inverse direction of the bit layout used by `read_aht10` (stated by the
spec as the round-trip property; byte 0, the status byte, carries no data). -/
def aht10_pack (h t : Nat) : RawBlock6 where
  b0 := 0
  b1 := h / 4096
  b2 := h / 16 % 256
  b3 := h % 16 * 16 + t / 65536
  b4 := t / 256 % 256
  b5 := t % 256

/-! ### Helper lemmas: bit operations as arithmetic -/

lemma shiftLeft_lor_eq_of_lt (a b k : Nat) (hb : b < 2 ^ k) :
    a <<< k ||| b = a * 2 ^ k + b := by
  rw [Nat.shiftLeft_eq, Nat.mul_comm a (2 ^ k), Nat.mul_add_lt_is_or hb]

lemma and_mask_eq_mod (x m k : Nat) (hm : m = 2 ^ k - 1) : x &&& m = x % 2 ^ k := by
  subst hm
  exact Nat.and_pow_two_sub_one_eq_mod x k

lemma aht10_raw_humi_eq (d : RawBlock6) (h2 : d.b2 < 256) (h3 : d.b3 < 256) :
    aht10_raw_humi d = d.b1 * 4096 + d.b2 * 16 + d.b3 / 16 := by
  unfold aht10_raw_humi
  rw [Nat.shiftRight_eq_div_pow,
      shiftLeft_lor_eq_of_lt d.b1 d.b2 8 (by omega),
      shiftLeft_lor_eq_of_lt _ _ 4 (by norm_num; omega)]
  norm_num
  omega

lemma aht10_raw_temp_eq (d : RawBlock6) (h4 : d.b4 < 256) (h5 : d.b5 < 256) :
    aht10_raw_temp d = d.b3 % 16 * 65536 + d.b4 * 256 + d.b5 := by
  unfold aht10_raw_temp
  rw [and_mask_eq_mod d.b3 0x0F 4 (by norm_num),
      shiftLeft_lor_eq_of_lt _ d.b4 8 (by omega),
      shiftLeft_lor_eq_of_lt _ d.b5 8 (by omega)]
  norm_num
  omega

/-! ### Claim theorems -/

/-- Claim C2: for every 16-bit word `w` read from the MCP9801 temperature
register, the decoded temperature equals `(w &&& 0xFF) + (w >>> 12) / 16`,
i.e. the low byte (`w % 256`) is the integer-Celsius part and the top nibble
(`w / 4096`) is the fractional part in 1/16 °C steps; no sign extension is
applied anywhere (the result is nonnegative for every word, including words
with the top bit set). -/
theorem C2_mcp9801_decode (w : Nat) (hw : w < 65536) :
    read_mcp9801_decode w = ((w % 256 : Nat) : ℚ) + ((w / 4096 : Nat) : ℚ) / 16 ∧
    0 ≤ read_mcp9801_decode w := by
  have hmask : (w &&& 0xff : Nat) = w % 256 := and_mask_eq_mod w 0xff 8 (by norm_num)
  have hshift : (w >>> 12 : Nat) = w / 4096 := by
    rw [Nat.shiftRight_eq_div_pow]
  constructor
  · rw [read_mcp9801_decode, hmask, hshift]
  · rw [read_mcp9801_decode]
    positivity

/-- Claim C2 witness: the decode at the concrete word `0x1980` (the spec's
own corrected sanity-check literal). -/
theorem C2_mcp9801_decode_witness :
    read_mcp9801_decode 0x1980 =
      ((0x1980 % 256 : Nat) : ℚ) + ((0x1980 / 4096 : Nat) : ℚ) / 16 ∧
    0 ≤ read_mcp9801_decode 0x1980 :=
  C2_mcp9801_decode 0x1980 (by decide)

/-- Claim C3 counterexample: the claim says the input word `0x1900` decodes
to 25.0 °C, but the code computes `(0x1900 &&& 0xff) + (0x1900 >>> 12)/16 =
0 + 1/16`, not 25.  (The byte order inside the word is the reverse of what
the claim assumes: `i2c_smbus_read_word_data` places the first byte on the
wire — the integer part — in the LOW byte of the word.) -/
theorem C3_counterexample :
    read_mcp9801_decode 0x1900 = 1 / 16 ∧ read_mcp9801_decode 0x1900 ≠ 25 := by
  have h1 : (0x1900 &&& 0xff : Nat) = 0 := by decide
  have h2 : (0x1900 >>> 12 : Nat) = 1 := by decide
  rw [read_mcp9801_decode, h1, h2]
  norm_num

/-- Claim C3 (amended): for the specific input word `0x0019` — the word
whose low byte is `0x19` = 25 and whose top nibble is 0, i.e. the word the
driver actually obtains for 25.0 °C — the MCP9801 decode produces 25.0 °C. -/
theorem C3_amended_decode_25 : read_mcp9801_decode 0x0019 = 25 := by
  have h1 : (0x0019 &&& 0xff : Nat) = 25 := by decide
  have h2 : (0x0019 >>> 12 : Nat) = 0 := by decide
  rw [read_mcp9801_decode, h1, h2]
  norm_num

/-- Claim C4: for every 6-byte AHT10 data block, the decoded humidity equals
`h * 100 / 2^20` where `h` is the 20-bit unsigned integer built from byte 1
(high 8 bits), byte 2 (mid 8 bits) and the top nibble of byte 3 (low 4
bits), and the decoded temperature equals `t * 200 / 2^20 - 50` where `t` is
the 20-bit unsigned integer built from the low nibble of byte 3 (high 4
bits), byte 4 (mid 8 bits) and byte 5 (low 8 bits). -/
theorem C4_aht10_decode (d : RawBlock6) (h1 : d.b1 < 256) (h2 : d.b2 < 256)
    (h3 : d.b3 < 256) (h4 : d.b4 < 256) (h5 : d.b5 < 256) :
    aht10_humi d = ((d.b1 * 4096 + d.b2 * 16 + d.b3 / 16 : Nat) : ℚ) * 100 / 2 ^ 20 ∧
    aht10_temp d =
      ((d.b3 % 16 * 65536 + d.b4 * 256 + d.b5 : Nat) : ℚ) * 200 / 2 ^ 20 - 50 := by
  constructor
  · rw [aht10_humi, aht10_raw_humi_eq d h2 h3]
    norm_num
  · rw [aht10_temp, aht10_raw_temp_eq d h4 h5]
    norm_num

/-- Claim C4 witness: the decode at the concrete block
`[0x1C, 0x12, 0x34, 0x56, 0x78, 0x9A]`. -/
theorem C4_aht10_decode_witness :
    aht10_humi ⟨0x1C, 0x12, 0x34, 0x56, 0x78, 0x9A⟩ =
      ((0x12 * 4096 + 0x34 * 16 + 0x56 / 16 : Nat) : ℚ) * 100 / 2 ^ 20 ∧
    aht10_temp ⟨0x1C, 0x12, 0x34, 0x56, 0x78, 0x9A⟩ =
      ((0x56 % 16 * 65536 + 0x78 * 256 + 0x9A : Nat) : ℚ) * 200 / 2 ^ 20 - 50 :=
  C4_aht10_decode ⟨0x1C, 0x12, 0x34, 0x56, 0x78, 0x9A⟩
    (by decide) (by decide) (by decide) (by decide) (by decide)

/-- Claim C9: the AHT10 bit-unpacking is a bijection between bytes 1..5 and
the pair of 20-bit raw values: re-packing the extracted 20-bit humidity and
temperature integers reproduces bytes 1..5 exactly, and extracting from a
packed pair of 20-bit values gives the pair back. -/
theorem C9_aht10_roundtrip :
    (∀ d : RawBlock6, d.b1 < 256 → d.b2 < 256 → d.b3 < 256 → d.b4 < 256 →
      d.b5 < 256 →
      (aht10_pack (aht10_raw_humi d) (aht10_raw_temp d)).b1 = d.b1 ∧
      (aht10_pack (aht10_raw_humi d) (aht10_raw_temp d)).b2 = d.b2 ∧
      (aht10_pack (aht10_raw_humi d) (aht10_raw_temp d)).b3 = d.b3 ∧
      (aht10_pack (aht10_raw_humi d) (aht10_raw_temp d)).b4 = d.b4 ∧
      (aht10_pack (aht10_raw_humi d) (aht10_raw_temp d)).b5 = d.b5) ∧
    (∀ h t : Nat, h < 2 ^ 20 → t < 2 ^ 20 →
      aht10_raw_humi (aht10_pack h t) = h ∧ aht10_raw_temp (aht10_pack h t) = t) := by
  constructor
  · intro d h1 h2 h3 h4 h5
    rw [aht10_raw_humi_eq d h2 h3, aht10_raw_temp_eq d h4 h5]
    unfold aht10_pack
    refine ⟨?_, ?_, ?_, ?_, ?_⟩ <;> simp only [] <;> omega
  · intro h t hh ht
    have hb2 : (aht10_pack h t).b2 < 256 := by unfold aht10_pack; simp only []; omega
    have hb3 : (aht10_pack h t).b3 < 256 := by unfold aht10_pack; simp only []; omega
    have hb4 : (aht10_pack h t).b4 < 256 := by unfold aht10_pack; simp only []; omega
    have hb5 : (aht10_pack h t).b5 < 256 := by unfold aht10_pack; simp only []; omega
    rw [aht10_raw_humi_eq _ hb2 hb3, aht10_raw_temp_eq _ hb4 hb5]
    unfold aht10_pack
    constructor <;> simp only [] <;> omega

/-- Claim C9 witness: the round trip at the concrete block
`[0x00, 0x12, 0x34, 0x56, 0x78, 0x9A]` and at the concrete raw pair
`(0x12345, 0x6789A)`. -/
theorem C9_aht10_roundtrip_witness :
    ((aht10_pack (aht10_raw_humi ⟨0, 0x12, 0x34, 0x56, 0x78, 0x9A⟩)
        (aht10_raw_temp ⟨0, 0x12, 0x34, 0x56, 0x78, 0x9A⟩)).b1 = 0x12 ∧
      (aht10_pack (aht10_raw_humi ⟨0, 0x12, 0x34, 0x56, 0x78, 0x9A⟩)
        (aht10_raw_temp ⟨0, 0x12, 0x34, 0x56, 0x78, 0x9A⟩)).b2 = 0x34 ∧
      (aht10_pack (aht10_raw_humi ⟨0, 0x12, 0x34, 0x56, 0x78, 0x9A⟩)
        (aht10_raw_temp ⟨0, 0x12, 0x34, 0x56, 0x78, 0x9A⟩)).b3 = 0x56 ∧
      (aht10_pack (aht10_raw_humi ⟨0, 0x12, 0x34, 0x56, 0x78, 0x9A⟩)
        (aht10_raw_temp ⟨0, 0x12, 0x34, 0x56, 0x78, 0x9A⟩)).b4 = 0x78 ∧
      (aht10_pack (aht10_raw_humi ⟨0, 0x12, 0x34, 0x56, 0x78, 0x9A⟩)
        (aht10_raw_temp ⟨0, 0x12, 0x34, 0x56, 0x78, 0x9A⟩)).b5 = 0x9A) ∧
    (aht10_raw_humi (aht10_pack 0x12345 0x6789A) = 0x12345 ∧
      aht10_raw_temp (aht10_pack 0x12345 0x6789A) = 0x6789A) :=
  ⟨C9_aht10_roundtrip.1 ⟨0, 0x12, 0x34, 0x56, 0x78, 0x9A⟩
      (by decide) (by decide) (by decide) (by decide) (by decide),
    C9_aht10_roundtrip.2 0x12345 0x6789A (by decide) (by decide)⟩

/-! ### Busy-wait poller lemmas -/

lemma busy_wait_loop_not_busy (p : Option Nat) (ps : List (Option Nat))
    (r m : Nat) (h : getStatus p &&& AHTX0_STATUS_BUSY = 0) :
    busy_wait_loop (p :: ps) r m = (some 0, ps) := by
  rw [busy_wait_loop]
  simp [h]

lemma busy_wait_loop_ready (n r m : Nat) (rest : List (Option Nat))
    (hm : m ≤ 254) (hle : r + n ≤ m) :
    busy_wait_loop (List.replicate n (some 0x80) ++ some 0 :: rest) r m =
      (some 0, rest) := by
  induction n generalizing r with
  | zero =>
    rw [List.replicate_zero, List.nil_append]
    exact busy_wait_loop_not_busy _ _ _ _ (by decide)
  | succ k ih =>
    rw [List.replicate_succ, List.cons_append, busy_wait_loop]
    have hbusy : getStatus (some 0x80) &&& AHTX0_STATUS_BUSY ≠ 0 := by decide
    simp only [hbusy, if_true]
    have hr : (r + 1) % 256 = r + 1 := Nat.mod_eq_of_lt (by omega)
    rw [hr]
    have hnottimeout : ¬ r + 1 > m := by omega
    simp only [hnottimeout, if_false]
    exact ih (r + 1) (by omega)

lemma busy_wait_loop_timeout (n r m : Nat) (rest : List (Option Nat))
    (hm : m ≤ 254) (heq : r + n = m + 1) (hn : 1 ≤ n) :
    (busy_wait_loop (List.replicate n (some 0x80) ++ rest) r m).1 = some (-1) := by
  induction n generalizing r with
  | zero => omega
  | succ k ih =>
    rw [List.replicate_succ, List.cons_append, busy_wait_loop]
    have hbusy : getStatus (some 0x80) &&& AHTX0_STATUS_BUSY ≠ 0 := by decide
    simp only [hbusy, if_true]
    have hr : (r + 1) % 256 = r + 1 := Nat.mod_eq_of_lt (by omega)
    rw [hr]
    by_cases htime : r + 1 > m
    · simp [hbusy, htime]
    · simp only [htime, if_false]
      exact ih (r + 1) (by omega) (by omega)

/-- Claim C1 (amended): for every delay and every `max_retries ≤ 254` — the
original claim additionally asserted this for `max_retries = 255`, where the
`uint8_t` retry counter wraps and the timeout check `retries > max_retries`
can never fire — the busy-wait poller returns `Ready` (0) as soon as a probe
reports not-busy; a probe sequence that is busy exactly `max_retries` times
(indeed, any number `n ≤ max_retries` of times) and then ready yields
`Ready`, while one that is busy `max_retries + 1` times yields
`TimedOut` (-1). -/
theorem C1_busy_wait_poller (d m : Nat) (hm : m ≤ 254) :
    (∀ p ps r, getStatus p &&& AHTX0_STATUS_BUSY = 0 →
      busy_wait_loop (p :: ps) r m = (some 0, ps)) ∧
    (∀ n rest, n ≤ m →
      (busy_wait_limited d m
        (List.replicate n (some 0x80) ++ some 0 :: rest)).1 = some 0) ∧
    (∀ rest,
      (busy_wait_limited d m
        (List.replicate (m + 1) (some 0x80) ++ rest)).1 = some (-1)) := by
  refine ⟨fun p ps r h => busy_wait_loop_not_busy p ps r m h, ?_, ?_⟩
  · intro n rest hn
    rw [busy_wait_limited, busy_wait_loop_ready n 0 m rest hm (by omega)]
  · intro rest
    exact busy_wait_loop_timeout (m + 1) 0 m rest hm (by omega) (by omega)

/-- Claim C1 witness: at delay 10 and `max_retries = 20` (the values the
drivers use), two busy probes then ready yields `Ready`, twenty busy probes
then ready yields `Ready`, and twenty-one busy probes yields `TimedOut`. -/
theorem C1_busy_wait_poller_witness :
    (busy_wait_limited 10 20
      (List.replicate 2 (some 0x80) ++ some 0 :: [])).1 = some 0 ∧
    (busy_wait_limited 10 20
      (List.replicate 20 (some 0x80) ++ some 0 :: [])).1 = some 0 ∧
    (busy_wait_limited 10 20
      (List.replicate 21 (some 0x80) ++ [])).1 = some (-1) :=
  ⟨(C1_busy_wait_poller 10 20 (by decide)).2.1 2 [] (by decide),
    (C1_busy_wait_poller 10 20 (by decide)).2.1 20 [] (by decide),
    (C1_busy_wait_poller 10 20 (by decide)).2.2 []⟩

set_option maxRecDepth 40000 in
/-- Claim C1 counterexample: at `max_retries = 255` the `uint8_t` retry
counter wraps (`retries > max_retries` never holds), so a probe sequence
with 256 consecutive busy results — strictly more than `max_retries` — does
not yield `TimedOut` as the claim requires: the poller keeps polling and
returns `Ready` at the 257th probe. -/
theorem C1_counterexample :
    (busy_wait_limited 10 255
      (List.replicate 256 (some 0x80) ++ [some 0])).1 = some 0 ∧
    (busy_wait_limited 10 255
      (List.replicate 256 (some 0x80) ++ [some 0])).1 ≠ some (-1) := by
  constructor
  · decide
  · decide

/-- Claim C5: for every 6-byte SHT30 data block, the driver decodes
temperature `-45 + 175 * (b0 * 256 + b1) / 65535` and humidity
`100 * (b3 * 256 + b4) / 65535`; bytes 2 and 5 (the CRC bytes) do not
influence either result. -/
theorem C5_sht30_decode :
    (∀ d : RawBlock6,
      read_sht30 true (some d) =
        (3, some (-45 + 175 * ((d.b0 * 256 + d.b1 : Nat) : ℚ) / 65535),
          some (100 * ((d.b3 * 256 + d.b4 : Nat) : ℚ) / 65535))) ∧
    (∀ d e : RawBlock6, d.b0 = e.b0 → d.b1 = e.b1 → d.b3 = e.b3 → d.b4 = e.b4 →
      sht30_temp d = sht30_temp e ∧ sht30_humi d = sht30_humi e) := by
  constructor
  · intro d
    rfl
  · intro d e h0 h1 h3 h4
    constructor
    · rw [sht30_temp, sht30_temp, h0, h1]
    · rw [sht30_humi, sht30_humi, h3, h4]

/-- Claim C5 witness: the decode at the concrete block
`[0x66, 0x6D, 0x11, 0x5C, 0x63, 0x22]`, and invariance under changing the
two unused bytes to `0x99`/`0x77`. -/
theorem C5_sht30_decode_witness :
    read_sht30 true (some ⟨0x66, 0x6D, 0x11, 0x5C, 0x63, 0x22⟩) =
      (3, some (-45 + 175 * ((0x66 * 256 + 0x6D : Nat) : ℚ) / 65535),
        some (100 * ((0x5C * 256 + 0x63 : Nat) : ℚ) / 65535)) ∧
    (sht30_temp ⟨0x66, 0x6D, 0x11, 0x5C, 0x63, 0x22⟩ =
        sht30_temp ⟨0x66, 0x6D, 0x99, 0x5C, 0x63, 0x77⟩ ∧
      sht30_humi ⟨0x66, 0x6D, 0x11, 0x5C, 0x63, 0x22⟩ =
        sht30_humi ⟨0x66, 0x6D, 0x99, 0x5C, 0x63, 0x77⟩) :=
  ⟨C5_sht30_decode.1 ⟨0x66, 0x6D, 0x11, 0x5C, 0x63, 0x22⟩,
    C5_sht30_decode.2 ⟨0x66, 0x6D, 0x11, 0x5C, 0x63, 0x22⟩
      ⟨0x66, 0x6D, 0x99, 0x5C, 0x63, 0x77⟩ rfl rfl rfl rfl⟩

/-- Claim C6: a status probe that fails at the transport level is treated as
busy by the poller: its `getStatus` value has the busy bit set, a failed
probe steps the loop exactly as an explicit busy status byte does (the loop
keeps polling and counts the retry), and a sequence made only of failed
probes can never make the poller return `Ready`. -/
theorem C6_probe_failure_is_busy :
    getStatus none &&& AHTX0_STATUS_BUSY ≠ 0 ∧
    (∀ ps r m, busy_wait_loop (none :: ps) r m =
      busy_wait_loop (some 0x80 :: ps) r m) ∧
    (∀ ps r m, (∀ p ∈ ps, p = none) → (busy_wait_loop ps r m).1 ≠ some 0) := by
  refine ⟨by decide, ?_, ?_⟩
  · intro ps r m
    rfl
  · intro ps
    induction ps with
    | nil =>
      intro r m _
      simp [busy_wait_loop]
    | cons p ps ih =>
      intro r m h
      have hp : p = none := h p (List.mem_cons_self p ps)
      subst hp
      rw [busy_wait_loop]
      have hbusy : getStatus none &&& AHTX0_STATUS_BUSY ≠ 0 := by decide
      simp only [hbusy, if_true]
      by_cases ht : (r + 1) % 256 > m
      · simp [ht, hbusy]
      · simp only [ht, if_false]
        exact ih ((r + 1) % 256) m (fun q hq => h q (List.mem_cons_of_mem _ hq))

/-- Claim C6 witness: a failed probe steps the loop exactly as a busy status
byte at the concrete state `(ps, r, m) = ([some 0], 0, 20)`, and two failed
probes at retry budget 1 do not return `Ready`. -/
theorem C6_probe_failure_is_busy_witness :
    busy_wait_loop (none :: [some 0]) 0 20 =
      busy_wait_loop (some 0x80 :: [some 0]) 0 20 ∧
    (busy_wait_loop [none, none] 0 1).1 ≠ some 0 :=
  ⟨C6_probe_failure_is_busy.2.1 [some 0] 0 20,
    C6_probe_failure_is_busy.2.2 [none, none] 0 1 (by decide)⟩

/-- Claim C10: when the status read used for the AHT10 calibrated-flag check
fails at the transport level, `getStatus` reports `0xFF`, whose bit `0x08`
is set, so the check passes and the driver proceeds to the trigger phase as
if calibration were confirmed; the calibration-failed error is never raised
on a failed status read. -/
theorem C10_failed_cal_probe (calw trigw : Bool) (blk : Option RawBlock6)
    (probes rest : List (Option Nat))
    (h : busy_wait_limited TOUT_10_MS BUSY_WAIT_RETRIES probes =
      (some 0, none :: rest)) :
    getStatus none = 0xFF ∧
    getStatus none &&& AHTX0_STATUS_CALIBRATED ≠ 0 ∧
    aht10_cal_check none = true ∧
    read_aht10 ⟨calw, probes, trigw, blk⟩ = aht10_after_cal trigw rest blk := by
  refine ⟨rfl, by decide, by decide, ?_⟩
  rw [read_aht10]
  simp only [h]
  simp [aht10_cal_check, getStatus, AHTX0_STATUS_CALIBRATED]

/-- Claim C10 witness: at the concrete probe trace `[some 0, none, some 0]`
— first busy-wait immediately ready, then a failed status read at the
calibrated check — the driver, with working trigger write and a block read,
proceeds past the check and the acquisition succeeds. -/
theorem C10_failed_cal_probe_witness :
    read_aht10 ⟨true, [some 0, none, some 0], true, some ⟨0, 1, 2, 3, 4, 5⟩⟩ =
      aht10_after_cal true [some 0] (some ⟨0, 1, 2, 3, 4, 5⟩) ∧
    getStatus none &&& AHTX0_STATUS_CALIBRATED ≠ 0 :=
  ⟨(C10_failed_cal_probe true true (some ⟨0, 1, 2, 3, 4, 5⟩)
      [some 0, none, some 0] [some 0] (by decide)).2.2.2,
    (C10_failed_cal_probe true true (some ⟨0, 1, 2, 3, 4, 5⟩)
      [some 0, none, some 0] [some 0] (by decide)).2.1⟩

/-! ### Driver result case analyses -/

lemma read_mcp9801_cases (c w : Option Nat) :
    read_mcp9801 c w = (-1, none, none) ∨
      ∃ v, read_mcp9801 c w = (1, some v, none) := by
  match c with
  | none => exact Or.inl rfl
  | some cv =>
    match w with
    | none => exact Or.inl rfl
    | some wv => exact Or.inr ⟨read_mcp9801_decode wv, rfl⟩

lemma aht10_after_cal_cases (tw : Bool) (ps : List (Option Nat))
    (blk : Option RawBlock6) (r : Int × Option ℚ × Option ℚ)
    (h : aht10_after_cal tw ps blk = some r) :
    r = (-1, none, none) ∨ ∃ tv hv, r = (3, some tv, some hv) := by
  rw [aht10_after_cal.eq_def] at h
  split at h
  · exact Or.inl (Option.some.inj h).symm
  · split at h
    · exact absurd h (by simp)
    · split at h
      · exact Or.inl (Option.some.inj h).symm
      · split at h
        · exact Or.inl (Option.some.inj h).symm
        · exact Or.inr ⟨_, _, (Option.some.inj h).symm⟩

lemma read_aht10_cases (t : AhtTransport) (r : Int × Option ℚ × Option ℚ)
    (h : read_aht10 t = some r) :
    r = (-1, none, none) ∨ ∃ tv hv, r = (3, some tv, some hv) := by
  rw [read_aht10] at h
  split at h
  · exact absurd h (by simp)
  · split at h
    · exact Or.inl (Option.some.inj h).symm
    · split at h
      · exact absurd h (by simp)
      · split at h
        · exact aht10_after_cal_cases _ _ _ _ h
        · exact Or.inl (Option.some.inj h).symm

lemma read_sht30_cases (mw : Bool) (b : Option RawBlock6) :
    read_sht30 mw b = (-1, none, none) ∨
      ∃ tv hv, read_sht30 mw b = (3, some tv, some hv) := by
  rw [read_sht30.eq_def]
  split
  · exact Or.inl rfl
  · match b with
    | none => exact Or.inl rfl
    | some d => exact Or.inr ⟨sht30_temp d, sht30_humi d, rfl⟩

/-- Claim C8: each driver's return value matches exactly the outputs it
wrote: `read_mcp9801` either fails with -1 writing nothing, or succeeds with
capability 1 (temperature only) leaving the humidity output untouched;
`read_aht10` and `read_sht30` either fail with -1 writing nothing, or
succeed with capability 3 having written both outputs. -/
theorem C8_capability_matches :
    (∀ c w, read_mcp9801 c w = (-1, none, none) ∨
      ∃ v, read_mcp9801 c w = (1, some v, none)) ∧
    (∀ t r, read_aht10 t = some r →
      r = (-1, none, none) ∨ ∃ tv hv, r = (3, some tv, some hv)) ∧
    (∀ mw b, read_sht30 mw b = (-1, none, none) ∨
      ∃ tv hv, read_sht30 mw b = (3, some tv, some hv)) :=
  ⟨read_mcp9801_cases, read_aht10_cases, read_sht30_cases⟩

/-- Claim C8 witness: a successful MCP9801 run returns capability 1 with a
temperature only; a successful AHT10 run returns capability 3 with both
values; a failed SHT30 measure write returns -1 with nothing written. -/
theorem C8_capability_matches_witness :
    (read_mcp9801 (some 0x60) (some 0x19) = (-1, none, none) ∨
      ∃ v, read_mcp9801 (some 0x60) (some 0x19) = (1, some v, none)) ∧
    ((3, some (aht10_temp ⟨0, 1, 2, 3, 4, 5⟩),
        some (aht10_humi ⟨0, 1, 2, 3, 4, 5⟩)) = ((-1 : Int), none, none) ∨
      ∃ tv hv, (3, some (aht10_temp ⟨0, 1, 2, 3, 4, 5⟩),
        some (aht10_humi ⟨0, 1, 2, 3, 4, 5⟩)) = ((3 : Int), some tv, some hv)) ∧
    (read_sht30 false none = (-1, none, none) ∨
      ∃ tv hv, read_sht30 false none = (3, some tv, some hv)) :=
  ⟨C8_capability_matches.1 (some 0x60) (some 0x19),
    C8_capability_matches.2.1 ⟨true, [some 0, some 0x08, some 0], true,
      some ⟨0, 1, 2, 3, 4, 5⟩⟩ _ rfl,
    C8_capability_matches.2.2 false none⟩

/-- Claim C7 counterexample: three distinct failing steps — the MCP9801
config-register read (RegisterReadError), the AHT10 trigger-command send
(TriggerSendError) and the SHT30 measurement-command send
(MeasureSendError) — all deliver the identical caller-visible result
`(-1, nothing, nothing)`, mapped by `main` to the one exit code 2, so the
caller cannot distinguish error kinds: the specific error kind is not
carried in the acquisition result. -/
theorem C7_counterexample :
    read_mcp9801 none (some 0x19) = (-1, none, none) ∧
    read_aht10 ⟨true, [some 0, some 0x08], false, some ⟨0, 1, 2, 3, 4, 5⟩⟩ =
      some (-1, none, none) ∧
    read_sht30 false (some ⟨0, 1, 2, 3, 4, 5⟩) = (-1, none, none) ∧
    main_exit_code (-1) = 2 := by
  refine ⟨rfl, by decide, rfl, rfl⟩

/-- Claim C7 (amended): every failing driver step is downgraded to the single
generic failure value -1 with no outputs written, and `main` maps every such
failure to the one exit code 2; error kinds are distinguished only by the
diagnostic printed on stderr, not by the result delivered to the caller. -/
theorem C7_generic_failure :
    (∀ c w, (read_mcp9801 c w).1 ≠ 1 →
      read_mcp9801 c w = (-1, none, none) ∧
        main_exit_code (read_mcp9801 c w).1 = 2) ∧
    (∀ t r, read_aht10 t = some r → r.1 ≠ 3 →
      r = (-1, none, none) ∧ main_exit_code r.1 = 2) ∧
    (∀ mw b, (read_sht30 mw b).1 ≠ 3 →
      read_sht30 mw b = (-1, none, none) ∧
        main_exit_code (read_sht30 mw b).1 = 2) := by
  refine ⟨?_, ?_, ?_⟩
  · intro c w h
    rcases read_mcp9801_cases c w with he | ⟨v, he⟩
    · rw [he]
      exact ⟨rfl, rfl⟩
    · rw [he] at h
      exact absurd rfl h
  · intro t r hr h
    rcases read_aht10_cases t r hr with he | ⟨tv, hv, he⟩
    · rw [he]
      exact ⟨rfl, rfl⟩
    · rw [he] at h
      exact absurd rfl h
  · intro mw b h
    rcases read_sht30_cases mw b with he | ⟨tv, hv, he⟩
    · rw [he]
      exact ⟨rfl, rfl⟩
    · rw [he] at h
      exact absurd rfl h

/-- Claim C7 witness for the amended statement: instantiated at the MCP9801
word-read failure, an AHT10 calibration-check failure, and the SHT30
measure-send failure. -/
theorem C7_generic_failure_witness :
    (read_mcp9801 (some 0x60) none = (-1, none, none) ∧
      main_exit_code (read_mcp9801 (some 0x60) none).1 = 2) ∧
    (((-1 : Int), (none : Option ℚ), (none : Option ℚ)) = (-1, none, none) ∧
      main_exit_code (-1) = 2) ∧
    (read_sht30 false (some ⟨0, 1, 2, 3, 4, 5⟩) = (-1, none, none) ∧
      main_exit_code (read_sht30 false (some ⟨0, 1, 2, 3, 4, 5⟩)).1 = 2) :=
  ⟨C7_generic_failure.1 (some 0x60) none (by decide),
    C7_generic_failure.2.1 ⟨true, [some 0, some 0], true, none⟩
      (-1, none, none) (by decide) (by decide),
    C7_generic_failure.2.2 false (some ⟨0, 1, 2, 3, 4, 5⟩) (by decide)⟩

end RoomTemp
